import Mathlib

/-!
Shallow embedding of `scripts/compare_chat_models.py`, the differential
conformance-testing harness for chat-completion backends: the scenario
registry (`build_scenarios`), the request executor (`run_single_request`),
the response summarizer (`summarise_response` with `sanitize_arguments`),
the expectation evaluator (`evaluate_expectations`), the comparator
(`compare_summaries`) and the report aggregation / exit-status logic of
`print_scenario_table` and `main`.

Python dictionaries appearing as data (request bodies, tool-call argument
mappings) are modelled by an inductive `PyVal`; the summary dictionaries
built by `summarise_response` only ever take three shapes (empty, streamed,
synchronous), so they are modelled by a three-constructor `Summary` type
together with accessor functions implementing `dict.get` / `in` exactly on
those shapes.  Backend calls are external I/O; their possible outcomes are
passed in as data (`SyncCallOutcome`, `StreamOutcome`), mirroring the
exception classes the executor distinguishes.
-/

/-- A Python runtime value, as it can appear inside a tool-call `arguments`
mapping or a scenario `request` body.  `vOpaque` stands for an object that
`json.dumps` cannot serialize (it raises `TypeError` on it); the payload is
the object's default string form. -/
inductive PyVal where
  | vNull
  | vBool (b : Bool)
  | vInt (n : Int)
  | vStr (s : String)
  | vList (items : List PyVal)
  | vDict (entries : List (String × PyVal))
  | vOpaque (str_form : String)

/-- Python `<` on strings: lexicographic comparison of the code-point
sequences (a strict prefix is smaller). -/
def charListLtB : List Char → List Char → Bool
  | [], [] => false
  | [], _ :: _ => true
  | _ :: _, [] => false
  | a :: as1, b :: bs =>
      if a.toNat < b.toNat then true
      else if b.toNat < a.toNat then false
      else charListLtB as1 bs

/-- Python `a < b` for strings. -/
def pyStrLt (a b : String) : Bool := charListLtB a.data b.data

/-- Order on dictionary entries used by `json.dumps(..., sort_keys=True)`:
compare by key (`a ≤ b` as `not (b < a)`). -/
def keyLe (a b : String × PyVal) : Prop := pyStrLt b.1 a.1 = false

instance : DecidableRel keyLe :=
  fun a b => inferInstanceAs (Decidable (pyStrLt b.1 a.1 = false))

/-- Strict version of `keyLe`, used to show sorted runs with distinct keys
are unique. -/
def keyLt (a b : String × PyVal) : Prop := pyStrLt a.1 b.1 = true

/-- The order `sorted` uses on plain strings. -/
def strSortLe (a b : String) : Prop := pyStrLt b a = false

instance : DecidableRel strSortLe :=
  fun a b => inferInstanceAs (Decidable (pyStrLt b a = false))

/-- One hexadecimal digit (lower case), for `\uXXXX` escapes. -/
def hexDigit (n : Nat) : Char :=
  if n < 10 then Char.ofNat (48 + n) else Char.ofNat (97 + (n - 10))

/-- JSON escaping of one character, as `json.dumps` performs with
`ensure_ascii=False`: only the two mandatory escapes, the common control
shorthands and `\u00XX` for other control characters; everything else
passes through unescaped. -/
def jsonEscapeChar (c : Char) : String :=
  if c = '"' then "\\\""
  else if c = '\\' then "\\\\"
  else if c = '\n' then "\\n"
  else if c = '\t' then "\\t"
  else if c = '\r' then "\\r"
  else if c = Char.ofNat 8 then "\\b"
  else if c = Char.ofNat 12 then "\\f"
  else if c.toNat < 32 then
    "\\u00" ++ String.singleton (hexDigit (c.toNat / 16))
      ++ String.singleton (hexDigit (c.toNat % 16))
  else String.singleton c

/-- A JSON string literal. -/
def jsonQuote (s : String) : String :=
  "\"" ++ String.join (s.toList.map jsonEscapeChar) ++ "\""

mutual

/-- `sort_keys=True`: recursively sort every mapping's entries by key before
serialization. -/
def sortKeysVal : PyVal → PyVal
  | .vList items => .vList (sortKeysList items)
  | .vDict entries => .vDict (List.insertionSort keyLe (sortKeysEntries entries))
  | v => v

def sortKeysList : List PyVal → List PyVal
  | [] => []
  | v :: vs => sortKeysVal v :: sortKeysList vs

def sortKeysEntries : List (String × PyVal) → List (String × PyVal)
  | [] => []
  | (k, v) :: kvs => (k, sortKeysVal v) :: sortKeysEntries kvs

end

mutual

/-- Serialization of an (already key-sorted) value with `json.dumps(...,
ensure_ascii=False)` separators; `none` where Python raises `TypeError`
(a non-serializable object somewhere inside the value). -/
def dumpsRaw : PyVal → Option String
  | .vNull => some "null"
  | .vBool true => some "true"
  | .vBool false => some "false"
  | .vInt n => some (toString n)
  | .vStr s => some (jsonQuote s)
  | .vList items => do
      let parts ← dumpsRawList items
      pure ("[" ++ String.intercalate ", " parts ++ "]")
  | .vDict entries => do
      let parts ← dumpsRawEntries entries
      pure ("\x7b" ++ String.intercalate ", " parts ++ "\x7d")
  | .vOpaque _ => none

def dumpsRawList : List PyVal → Option (List String)
  | [] => some []
  | v :: vs => do pure ((← dumpsRaw v) :: (← dumpsRawList vs))

def dumpsRawEntries : List (String × PyVal) → Option (List String)
  | [] => some []
  | (k, v) :: kvs => do
      pure ((jsonQuote k ++ ": " ++ (← dumpsRaw v)) :: (← dumpsRawEntries kvs))

end

/-- `json.dumps(v, sort_keys=True, ensure_ascii=False)`: `none` models the
`TypeError` raised on a non-serializable value. -/
def dumps (v : PyVal) : Option String := dumpsRaw (sortKeysVal v)

/-- Escaping inside a Python single-quoted `repr` string literal
(backslash and the quote itself). -/
def reprEscapeChar (c : Char) : String :=
  if c = '\\' then "\\\\"
  else if c = Char.ofNat 39 then "\\\x27"
  else String.singleton c

/-- A Python `repr` string literal (single-quoted form). -/
def reprQuote (s : String) : String :=
  "\x27" ++ String.join (s.toList.map reprEscapeChar) ++ "\x27"

mutual

/-- Python `str(value)`: for containers this coincides with `repr`,
rendering dictionary entries in insertion order; for an opaque object it is
the object's stored string form. -/
def pyStr : PyVal → String
  | .vNull => "None"
  | .vBool true => "True"
  | .vBool false => "False"
  | .vInt n => toString n
  | .vStr s => reprQuote s
  | .vList items => "[" ++ String.intercalate ", " (pyStrList items) ++ "]"
  | .vDict entries =>
      "\x7b" ++ String.intercalate ", " (pyStrEntries entries) ++ "\x7d"
  | .vOpaque str_form => str_form

def pyStrList : List PyVal → List String
  | [] => []
  | v :: vs => pyStr v :: pyStrList vs

def pyStrEntries : List (String × PyVal) → List String
  | [] => []
  | (k, v) :: kvs => (reprQuote k ++ ": " ++ pyStr v) :: pyStrEntries kvs

end

/-- The input type of `sanitize_arguments`, as annotated in the source:
`args: str | Dict[str, Any]`. -/
inductive Args where
  | str (s : String)
  | dict (entries : List (String × PyVal))

/-- `sanitize_arguments`: a string passes through unchanged; a mapping is
serialized with sorted keys and no ASCII-escaping; on a `TypeError` from
serialization the value's default string form is returned instead. -/
def sanitize_arguments : Args → String
  | .str s => s
  | .dict entries =>
      match dumps (.vDict entries) with
      | some out => out
      | none => pyStr (.vDict entries)

/-- Python truthiness of an `Optional[str]`: `None` and the empty string are
falsy. -/
def truthyOptStr : Option String → Bool
  | none => false
  | some s => !s.isEmpty

/-- Python slicing `s[:n]` on a string, over its character sequence. -/
def pySlice (n : Nat) (s : String) : String :=
  String.mk (s.data.take n)

/-- Python `str.strip()` with no argument: remove leading and trailing
whitespace characters. -/
def pyStrip (s : String) : String :=
  String.mk
    (((s.data.dropWhile Char.isWhitespace).reverse.dropWhile
        Char.isWhitespace).reverse)

/-- The `function` part of a summarized tool call:
`{name, arguments}` with `arguments` already canonicalized. -/
structure FunctionSummary where
  name : String
  arguments : String
deriving DecidableEq

/-- One entry of the summary's `tool_calls` list:
`{id, type, function: {name, arguments}}`. -/
structure ToolCallSummary where
  id : String
  type : String
  function : FunctionSummary
deriving DecidableEq

/-- The three dictionary shapes `summarise_response` can produce (plus the
empty dictionary `{}` that the executor stores on failure paths): the
streamed projection and the synchronous projection, with exactly the keys
the source builds in each branch. -/
inductive Summary where
  | empty
  | streamed (finish_reason : Option String) (content_preview : String)
      (content_length : Nat) (chunk_count : Nat)
  | sync (finish_reason : Option String) (role : String) (has_content : Bool)
      (parsed : Option PyVal) (tool_calls : Option (List ToolCallSummary))
      (content_preview : String)

/-- Python truthiness of the summary dictionary: only `{}` is falsy. -/
def Summary.isEmptyDict : Summary → Bool
  | .empty => true
  | _ => false

/-- `summary.get("finish_reason")` (missing key and a stored `None` both
come back as `none`, exactly as `dict.get` returns `None` for both). -/
def Summary.getFinishReason : Summary → Option String
  | .empty => none
  | .streamed fr _ _ _ => fr
  | .sync fr _ _ _ _ _ => fr

/-- `summary.get("role")`: only the synchronous shape carries the key. -/
def Summary.getRole : Summary → Option String
  | .sync _ role _ _ _ _ => some role
  | _ => none

/-- `summary.get("tool_calls")`: only the synchronous shape carries the
key, and its value may itself be `None`. -/
def Summary.getToolCalls : Summary → Option (List ToolCallSummary)
  | .sync _ _ _ _ tool_calls _ => tool_calls
  | _ => none

/-- `summary.get("content_length")`: only the streamed shape carries the
key. -/
def Summary.getContentLength : Summary → Option Nat
  | .streamed _ _ content_length _ => some content_length
  | _ => none

/-- `"content_length" in summary`. -/
def Summary.hasContentLengthKey : Summary → Bool
  | .streamed _ _ _ _ => true
  | _ => false

/-- `summary.get("content_preview", "")`. -/
def Summary.getContentPreview : Summary → String
  | .empty => ""
  | .streamed _ content_preview _ _ => content_preview
  | .sync _ _ _ _ _ content_preview => content_preview

/-- The set of keys of the summary dictionary, in insertion order. -/
def Summary.keys : Summary → List String
  | .empty => []
  | .streamed _ _ _ _ =>
      ["finish_reason", "content_preview", "content_length", "chunk_count"]
  | .sync _ _ _ _ _ _ =>
      ["finish_reason", "role", "has_content", "parsed", "tool_calls",
       "content_preview"]

/-- The `{content, chunks, finish_reason}` aggregate the streaming branch
of the executor hands to `summarise_response`. -/
structure StreamAgg where
  content : String
  chunks : List String
  finish_reason : Option String

/-- A raw tool call on a synchronous response message:
`call.id`, `call.type`, `call.function.{name, arguments}`. -/
structure RawFunction where
  name : String
  arguments : Args

structure RawToolCall where
  id : String
  type : String
  function : RawFunction

/-- A synchronous response message: `role`, optional text `content`,
`tool_calls` (`None` or a list) and the optional schema-`parsed` payload. -/
structure RawMessage where
  role : String
  content : Option String
  tool_calls : Option (List RawToolCall)
  parsed : Option PyVal

/-- The first choice of a synchronous response,
`response.choices[0].{finish_reason, message}`. -/
structure RawChoice where
  finish_reason : Option String
  message : RawMessage

/-- A synchronous chat-completion response; `choices0` is the first element
of `response.choices`, the only one the summarizer reads. -/
structure RawResponse where
  choices0 : RawChoice

/-- The tagged input of `summarise_response`: the `streamed` keyword
discriminates the executor's aggregate from a raw synchronous response. -/
inductive SummariseInput where
  | streamed (result : StreamAgg)
  | sync (result : RawResponse)

/-- `summarise_response`: project a response onto the comparison-friendly
summary dictionary.  The streamed branch reads the aggregate's `content`,
`chunks` and `finish_reason`; the synchronous branch reads the first
choice, flattens any tool calls (canonicalizing the arguments) and
normalizes an empty tool-call list to `None`. -/
def summarise_response : SummariseInput → Summary
  | .streamed result =>
      .streamed result.finish_reason (pySlice 120 result.content)
        result.content.length result.chunks.length
  | .sync result =>
      let choice := result.choices0
      let message := choice.message
      let tool_calls : List ToolCallSummary :=
        match message.tool_calls with
        | some (call :: calls) =>
            (call :: calls).map fun call =>
              { id := call.id
                type := call.type
                function :=
                  { name := call.function.name
                    arguments := sanitize_arguments call.function.arguments } }
        | _ => []
      .sync choice.finish_reason message.role (truthyOptStr message.content)
        message.parsed (if tool_calls.isEmpty then none else some tool_calls)
        (pySlice 120 (message.content.getD ""))

/-- Declarative assertions a scenario may carry; `requires_tools` models a
Python `set[str]` by the list of its (distinct) elements. -/
structure ScenarioExpectations where
  finish_reason : Option String := none
  tool_call_count : Option Nat := none
  requires_tools : Option (List String) := none
  min_content_length : Option Int := none

/-- A scenario: a named request body (a Python dictionary) with the
expected-failure flag and optional expectations. -/
structure Scenario where
  name : String
  description : String
  request : List (String × PyVal)
  expect_failure : Bool := false
  expectations : Option ScenarioExpectations := none

/-- The outcome of executing one scenario against one backend. -/
structure ScenarioResult where
  ok : Bool
  summary : Summary
  error : Option String := none

/-- `request.pop("stream", False)` interpreted for truthiness: the scenario
declares streaming when its request body carries a truthy `stream` entry. -/
def requestStream (request : List (String × PyVal)) : Bool :=
  match request.lookup "stream" with
  | some (.vBool b) => b
  | some .vNull => false
  | some (.vStr s) => !s.isEmpty
  | some (.vInt n) => n ≠ 0
  | some (.vList items) => !items.isEmpty
  | some (.vDict entries) => !entries.isEmpty
  | some (.vOpaque _) => true
  | none => false

/-- How one synchronous backend call can end, mirroring the exception
clauses of the executor: a normal response, a `BadRequestError` (validation
rejection), any other `APIError` (server-side fault), or any other
exception; each error carries its `str(exc)` message. -/
inductive SyncCallOutcome where
  | success (response : RawResponse)
  | badRequest (msg : String)
  | apiError (msg : String)
  | otherError (msg : String)

/-- One event of a stream:
`chunk.choices[0].{delta.content, finish_reason}`. -/
structure StreamChunk where
  delta_content : Option String
  finish_reason : Option String

/-- How one streaming call can end: the full ordered event sequence, or an
exception (during `create` or while consuming) with its message. -/
inductive StreamOutcome where
  | events (chunks : List StreamChunk)
  | raises (msg : String)

/-- What the backend would do with this scenario's request: the executor's
two call styles, each with its externally-determined outcome. -/
structure BackendBehavior where
  sync : SyncCallOutcome
  stream : StreamOutcome

/-- One iteration of the streaming accumulation loop: append a truthy
`delta.content` to the collected chunks and overwrite the tracked finish
reason with a truthy `finish_reason`. -/
def streamStep (acc : List String × Option String) (chunk : StreamChunk) :
    List String × Option String :=
  (if truthyOptStr chunk.delta_content then
      acc.1 ++ [chunk.delta_content.getD ""]
    else acc.1,
   if truthyOptStr chunk.finish_reason then chunk.finish_reason
   else acc.2)

/-- The streaming accumulation loop over the whole event sequence, starting
from no collected chunks and no finish reason. -/
def consumeStream (chunks : List StreamChunk) : List String × Option String :=
  chunks.foldl streamStep ([], none)

/-- The streaming branch of `run_single_request`: aggregate the stream,
trim the concatenated content, summarize, and succeed exactly when the
terminal finish reason is `"stop"`; any exception becomes a failed result
with the message as `error`. -/
def run_single_request_streaming : StreamOutcome → ScenarioResult
  | .raises msg => { ok := false, summary := .empty, error := some msg }
  | .events chunks =>
      let acc := consumeStream chunks
      let aggregate : StreamAgg :=
        { content := pyStrip (String.join acc.1)
          chunks := acc.1
          finish_reason := acc.2 }
      { ok := acc.2 = some "stop"
        summary := summarise_response (.streamed aggregate) }

/-- The synchronous branch of `run_single_request`: a successful call is
summarized with `ok=true`; a `BadRequestError` is `ok=true` iff the
scenario expects failure, keeping the message; an `APIError` is always
`ok=false` with an `APIError: ` prefix; any other exception is `ok=false`
with its message. -/
def run_single_request_sync (expect_failure : Bool) :
    SyncCallOutcome → ScenarioResult
  | .success response =>
      { ok := true, summary := summarise_response (.sync response) }
  | .badRequest msg =>
      if expect_failure then
        { ok := true, summary := .empty, error := some msg }
      else
        { ok := false, summary := .empty, error := some msg }
  | .apiError msg =>
      { ok := false, summary := .empty, error := some ("APIError: " ++ msg) }
  | .otherError msg =>
      { ok := false, summary := .empty, error := some msg }

/-- `run_single_request`: dispatch on the request's popped `stream` flag to
the streaming or the synchronous branch. -/
def run_single_request (scenario : Scenario) (behavior : BackendBehavior) :
    ScenarioResult :=
  if requestStream scenario.request then
    run_single_request_streaming behavior.stream
  else
    run_single_request_sync scenario.expect_failure behavior.sync

/-- The `!r` rendering of an `Optional[str]` inside an f-string. -/
def pyReprOptStr : Option String → String
  | none => "None"
  | some s => reprQuote s

/-- The f-string rendering of `sorted(missing)` for a set of strings: a
Python list display of the sorted elements' `repr`s. -/
def pyStrSortedStrList (xs : List String) : String :=
  "[" ++ String.intercalate ", "
    ((List.insertionSort strSortLe xs).map reprQuote) ++ "]"

/-- `evaluate_expectations`: short-circuit on no expectations, an absent
result, a failed request or an empty summary; then run the declared checks
in order (finish reason; tool-call count with the required-tools check
nested inside it; minimum content length), collecting semicolon-joined
feedback. -/
def evaluate_expectations (result : Option ScenarioResult)
    (expectations : Option ScenarioExpectations) : Bool × Option String :=
  match expectations with
  | none => (true, none)
  | some expectations =>
    match result with
    | none => (false, some "scenario skipped; expectations not evaluated")
    | some result =>
      if truthyOptStr result.error && !result.ok then
        (false, some ("request failed: " ++ result.error.getD ""))
      else if result.summary.isEmptyDict then
        (false, some "no summary produced")
      else
        let summary := result.summary
        let st0 : Bool × List String := (true, [])
        let st1 :=
          match expectations.finish_reason with
          | none => st0
          | some expected =>
              let actual := summary.getFinishReason
              if actual ≠ some expected then
                (false, st0.2 ++ ["finish_reason expected " ++ reprQuote expected
                  ++ " got " ++ pyReprOptStr actual])
              else st0
        let st2 :=
          match expectations.tool_call_count with
          | none => st1
          | some expected_count =>
              let tool_calls : List ToolCallSummary :=
                summary.getToolCalls.getD []
              let actual_count := tool_calls.length
              let stA :=
                if actual_count ≠ expected_count then
                  (false, st1.2 ++ ["tool_call_count expected "
                    ++ toString expected_count ++ " got "
                    ++ toString actual_count])
                else st1
              match expectations.requires_tools with
              | some required =>
                  if !required.isEmpty then
                    let actual_tools : List String :=
                      tool_calls.map fun (call : ToolCallSummary) =>
                        call.function.name
                    let missing :=
                      required.filter fun t => !actual_tools.contains t
                    if !missing.isEmpty then
                      (false, stA.2 ++ ["missing tool calls for: "
                        ++ pyStrSortedStrList missing])
                    else stA
                  else stA
              | none => stA
        let st3 :=
          match expectations.min_content_length with
          | none => st2
          | some bound =>
              let actual_length : Int :=
                match summary.getContentLength with
                | some n => (n : Int)
                | none => (summary.getContentPreview.length : Int)
              if actual_length < bound then
                (false, st2.2 ++ ["content too short (expected ≥"
                  ++ toString bound ++ ", got " ++ toString actual_length
                  ++ ")"])
              else st2
        (st3.1,
         if st3.2.isEmpty then none
         else some (String.intercalate "; " st3.2))

/-- The diff mapping `compare_summaries` builds: each tracked field present
exactly when the two summaries disagree on it, holding the
`{local, openai}` pair of values. -/
structure SummaryDiff where
  finish_reason : Option (Option String × Option String) := none
  role : Option (Option String × Option String) := none
  tool_calls : Option (List String × List String) := none
  content_length : Option (Option Nat × Option Nat) := none
deriving DecidableEq

/-- Truthiness of the diff dictionary (`diffs or None`): no key present. -/
def SummaryDiff.isEmptyDict (d : SummaryDiff) : Bool :=
  d.finish_reason.isNone && d.role.isNone && d.tool_calls.isNone
    && d.content_length.isNone

/-- `compare_summaries`: `None` when either side is absent or has an empty
summary; otherwise the mapping of tracked fields that differ
(`finish_reason`, `role`, the ordered tool-call name lists, and
`content_length` when at least one side carries the key), collapsed to
`None` when nothing differs. -/
def compare_summaries (local_result openai_result : Option ScenarioResult) :
    Option SummaryDiff :=
  match local_result, openai_result with
  | some local_result, some openai_result =>
      if local_result.summary.isEmptyDict
          || openai_result.summary.isEmptyDict then none
      else
        let local_summary := local_result.summary
        let openai_summary := openai_result.summary
        let local_tools : List String :=
          (local_summary.getToolCalls.getD []).map
            fun (call : ToolCallSummary) => call.function.name
        let openai_tools : List String :=
          (openai_summary.getToolCalls.getD []).map
            fun (call : ToolCallSummary) => call.function.name
        let diffs : SummaryDiff :=
          { finish_reason :=
              if local_summary.getFinishReason ≠ openai_summary.getFinishReason
              then some (local_summary.getFinishReason,
                openai_summary.getFinishReason)
              else none
            role :=
              if local_summary.getRole ≠ openai_summary.getRole then
                some (local_summary.getRole, openai_summary.getRole)
              else none
            tool_calls :=
              if local_tools ≠ openai_tools then
                some (local_tools, openai_tools)
              else none
            content_length :=
              if (local_summary.hasContentLengthKey
                    || openai_summary.hasContentLengthKey)
                  && local_summary.getContentLength
                    ≠ openai_summary.getContentLength then
                some (local_summary.getContentLength,
                  openai_summary.getContentLength)
              else none }
        if diffs.isEmptyDict then none else some diffs
  | _, _ => none

/-- One scenario's aggregated report. -/
structure ScenarioReport where
  scenario : Scenario
  local_result : Option ScenarioResult
  openai_result : Option ScenarioResult
  expectation_passed : Bool
  expectation_feedback : Option String := none
  comparison : Option SummaryDiff := none

/-- The boolean `print_scenario_table` returns: the local result is absent
or succeeded, and the expectations passed. -/
def print_scenario_table_success (report : ScenarioReport) : Bool :=
  (match report.local_result with
   | none => true
   | some r => r.ok) && report.expectation_passed

/-- One iteration of the scenario loop in `main`: run each configured
backend, evaluate expectations on the local result, compare the two
summaries. -/
def runScenario (local_behavior openai_behavior : Option BackendBehavior)
    (scenario : Scenario) : ScenarioReport :=
  let local_result := local_behavior.map (run_single_request scenario)
  let openai_result := openai_behavior.map (run_single_request scenario)
  let ev := evaluate_expectations local_result scenario.expectations
  { scenario := scenario
    local_result := local_result
    openai_result := openai_result
    expectation_passed := ev.1
    expectation_feedback := ev.2
    comparison := compare_summaries local_result openai_result }

/-- The `passed` counter of the final `Scenarios passed: passed/total`
line. -/
def passedCount (reports : List ScenarioReport) : Nat :=
  (reports.filter fun report =>
    (match report.local_result with
     | none => true
     | some r => r.ok) && report.expectation_passed).length

/-- The scenario-driving tail of `main`, after the backend clients are
resolved (a behavior function is absent when that backend is skipped):
selected scenarios are run in order and the process exit status is
returned — `0` when nothing was selected, otherwise `0` iff every
scenario's table line reported success. -/
def main_exit (scenarios : List Scenario)
    (local_behavior openai_behavior : Option (Scenario → BackendBehavior)) :
    Nat :=
  if scenarios.isEmpty then 0
  else
    let reports := scenarios.map fun s =>
      runScenario (local_behavior.map (· s)) (openai_behavior.map (· s)) s
    let success := reports.all print_scenario_table_success
    if success then 0 else 1

def _system_message (content : String) : PyVal :=
  .vDict [("role", .vStr "system"), ("content", .vStr content)]

def _user_message (content : String) : PyVal :=
  .vDict [("role", .vStr "user"), ("content", .vStr content)]

/-- The `echo` tool declaration; the source spells out this literal in both
of the scenarios that declare tools the model may use or must not use. -/
def echoToolDecl : PyVal :=
  .vDict
    [("type", .vStr "function"),
     ("function", .vDict
       [("name", .vStr "echo"),
        ("description", .vStr "Return the same message"),
        ("parameters", .vDict
          [("type", .vStr "object"),
           ("properties", .vDict
             [("message", .vDict [("type", .vStr "string")])]),
           ("required", .vList [.vStr "message"])])])]

/-- The first entry of `build_scenarios`, pulled out by name so theorems
can refer to it directly. -/
def basic_completion_scenario : Scenario :=
  { name := "basic_completion"
    description := "Simple text response"
    request :=
      [("messages", .vList
        [_system_message "You reply with one concise sentence.",
         _user_message "Give me a random fruit."])]
    expectations := some
      { finish_reason := some "stop", min_content_length := some 5 } }

/-- The sixth entry of `build_scenarios` (the only one with
`expect_failure=True`), pulled out by name so theorems can refer to it
directly. -/
def invalid_schema_scenario : Scenario :=
  { name := "invalid_schema"
    description := "Send an invalid schema and expect a failure"
    request :=
      [("messages", .vList [_user_message "Hello"]),
       ("response_format", .vDict
         [("type", .vStr "json_schema"),
          ("json_schema", .vDict
            [("name", .vStr "Bad"),
             ("schema", .vDict [("type", .vStr "whoops")])])])]
    expect_failure := true }

/-- `build_scenarios`: the ordered suite of chat-completion scenarios. -/
def build_scenarios : List Scenario :=
  [basic_completion_scenario,
   { name := "structured_json"
     description := "JSON schema enforced response"
     request :=
       [("messages", .vList
         [_system_message "You speak JSON",
          _user_message "Return sandwich info."]),
        ("response_format", .vDict
          [("type", .vStr "json_schema"),
           ("json_schema", .vDict
             [("name", .vStr "SandwichSummary"),
              ("schema", .vDict
                [("type", .vStr "object"),
                 ("properties", .vDict
                   [("name", .vDict [("type", .vStr "string")]),
                    ("ingredients", .vDict
                      [("type", .vStr "array"),
                       ("items", .vDict [("type", .vStr "string")]),
                       ("minItems", .vInt 2)]),
                    ("vegetarian", .vDict [("type", .vStr "boolean")])]),
                 ("required", .vList [.vStr "name", .vStr "ingredients"]),
                 ("additionalProperties", .vBool false)])])])]
     expectations := some
       { finish_reason := some "stop", min_content_length := some 10 } },
   { name := "tool_call"
     description := "Allow the model to request a tool call"
     request :=
       [("messages", .vList
         [_system_message "Call tools when necessary.",
          _user_message "Use the echo tool to repeat hello world."]),
        ("tools", .vList [echoToolDecl])]
     expectations := some
       { finish_reason := some "tool_calls"
         tool_call_count := some 1
         requires_tools := some ["echo"] } },
   { name := "tool_choice_none"
     description := "Forbid tool usage, expect a direct answer"
     request :=
       [("messages", .vList
         [_system_message "You may *not* call any tools.",
          _user_message "Explain, briefly, what tool_choice none means."]),
        ("tools", .vList [echoToolDecl]),
        ("tool_choice", .vStr "none")]
     expectations := some
       { finish_reason := some "stop"
         tool_call_count := some 0
         min_content_length := some 20 } },
   { name := "streaming"
     description := "Streaming chat completion (capture aggregated text)"
     request :=
       [("messages", .vList
         [_system_message "Be poetic.",
          _user_message "Describe the ocean in five short phrases."]),
        ("stream", .vBool true)]
     expectations := some
       { finish_reason := some "stop", min_content_length := some 30 } },
   invalid_schema_scenario,
   { name := "multi_turn_with_tool"
     description := "Conversation requiring tool output integration"
     request :=
       [("messages", .vList
         [_system_message
            "You are a task assistant. Use tools when helpful and cite results.",
          _user_message
            "What\x27s 32 * 14? After you know the number, say if it is even."]),
        ("tools", .vList
          [.vDict
            [("type", .vStr "function"),
             ("function", .vDict
               [("name", .vStr "calculate_expression"),
                ("description", .vStr "Evaluate arithmetic expressions"),
                ("parameters", .vDict
                  [("type", .vStr "object"),
                   ("properties", .vDict
                     [("expression", .vDict [("type", .vStr "string")])]),
                   ("required", .vList [.vStr "expression"])])])]])]
     expectations := some
       { finish_reason := some "tool_calls"
         tool_call_count := some 1
         requires_tools := some ["calculate_expression"] } },
   { name := "json_list_response"
     description := "Structured JSON array response with multiple fields"
     request :=
       [("messages", .vList
         [_system_message "Respond with a JSON object describing two tasks.",
          _user_message "Give me two chores to do with estimated minutes."]),
        ("response_format", .vDict
          [("type", .vStr "json_schema"),
           ("json_schema", .vDict
             [("name", .vStr "ChorePlan"),
              ("schema", .vDict
                [("type", .vStr "object"),
                 ("properties", .vDict
                   [("tasks", .vDict
                     [("type", .vStr "array"),
                      ("items", .vDict
                        [("type", .vStr "object"),
                         ("properties", .vDict
                           [("title", .vDict [("type", .vStr "string")]),
                            ("minutes", .vDict
                              [("type", .vStr "integer"),
                               ("minimum", .vInt 1)])]),
                         ("required", .vList
                           [.vStr "title", .vStr "minutes"])]),
                      ("minItems", .vInt 2)])]),
                 ("required", .vList [.vStr "tasks"]),
                 ("additionalProperties", .vBool false)])])])]
     expectations := some
       { finish_reason := some "stop", min_content_length := some 15 } }]

/-- The content the streaming loop appends for one chunk: the delta text
when truthy, nothing otherwise. -/
def emittedContent (chunk : StreamChunk) : Option String :=
  if truthyOptStr chunk.delta_content then some (chunk.delta_content.getD "")
  else none

/-- The finish reason the streaming loop records for one chunk: the event's
value when truthy, nothing otherwise. -/
def observedFinish (chunk : StreamChunk) : Option String :=
  if truthyOptStr chunk.finish_reason then chunk.finish_reason else none

/-- Agreement of two summaries on every field `compare_summaries` tracks:
equal finish reasons, equal roles, equal ordered tool-call name lists, and
equal content lengths whenever at least one side reports one. -/
def trackedFieldsAgree (s1 s2 : Summary) : Prop :=
  s1.getFinishReason = s2.getFinishReason
    ∧ s1.getRole = s2.getRole
    ∧ (s1.getToolCalls.getD []).map
        (fun (call : ToolCallSummary) => call.function.name)
      = (s2.getToolCalls.getD []).map
        (fun (call : ToolCallSummary) => call.function.name)
    ∧ ((s1.hasContentLengthKey || s2.hasContentLengthKey) = true →
        s1.getContentLength = s2.getContentLength)

/-- A minimal non-streaming scenario used to instantiate universally
quantified executor statements at a concrete input. -/
def plain_scenario : Scenario :=
  { name := "plain", description := "minimal", request := [] }

/-- A minimal streaming scenario used to instantiate universally quantified
executor statements at a concrete input. -/
def stream_scenario : Scenario :=
  { name := "stream", description := "minimal"
    request := [("stream", .vBool true)] }

/-- C2: for every non-streaming scenario, `run_single_request` resolves
every call outcome to a `ScenarioResult` (it never propagates an
exception): a `BadRequestError` yields `ok=true` with the message as
`error` when the scenario expects failure and `ok=false` with the message
otherwise; an `APIError` always yields `ok=false` with the message
prefixed by `APIError: `; any other exception yields `ok=false` with its
message; a successful call is summarized with `ok=true`. -/
theorem run_single_request_sync_classification
    (scenario : Scenario) (behavior : BackendBehavior)
    (hsync : requestStream scenario.request = false) :
    (∀ msg, behavior.sync = .badRequest msg →
      run_single_request scenario behavior =
        if scenario.expect_failure then
          { ok := true, summary := .empty, error := some msg }
        else
          { ok := false, summary := .empty, error := some msg })
    ∧ (∀ msg, behavior.sync = .apiError msg →
      run_single_request scenario behavior =
        { ok := false, summary := .empty,
          error := some ("APIError: " ++ msg) })
    ∧ (∀ msg, behavior.sync = .otherError msg →
      run_single_request scenario behavior =
        { ok := false, summary := .empty, error := some msg })
    ∧ (∀ response, behavior.sync = .success response →
      run_single_request scenario behavior =
        { ok := true, summary := summarise_response (.sync response),
          error := none }) := by
  refine ⟨?_, ?_, ?_, ?_⟩ <;> intro m h <;>
    cases hef : scenario.expect_failure <;>
      simp [run_single_request, hsync, run_single_request_sync, h, hef]

/-- Witness for C2: the minimal non-streaming scenario with a rejected
request is classified as a failure (its `expect_failure` is false). -/
theorem run_single_request_sync_classification_witness :
    requestStream plain_scenario.request = false
    ∧ run_single_request plain_scenario
        { sync := .badRequest "rejected", stream := .events [] }
      = { ok := false, summary := .empty, error := some "rejected" } := by
  refine ⟨rfl, ?_⟩
  have h := (run_single_request_sync_classification plain_scenario
    { sync := .badRequest "rejected", stream := .events [] } rfl).1 "rejected"
    rfl
  simpa [plain_scenario] using h

/-- C5: `evaluate_expectations` is total — for every optional result and
optional expectation set it returns a definite boolean together with an
optional feedback string. -/
theorem evaluate_expectations_total
    (result : Option ScenarioResult)
    (expectations : Option ScenarioExpectations) :
    ∃ (passed : Bool) (feedback : Option String),
      evaluate_expectations result expectations = (passed, feedback) :=
  ⟨_, _, rfl⟩

/-- C6: every `build_scenarios` scenario with `expect_failure=true` has no
expectations, so a result carrying an error with `ok=true` evaluates to
`passed=true`; moreover, for any result with `ok=true` the evaluator's
request-failed rule never fires — the outcome is the same as if no error
were set. -/
theorem expect_failure_skips_expectations :
    (∀ scenario ∈ build_scenarios, scenario.expect_failure = true →
      ∀ err : String,
        evaluate_expectations
          (some { ok := true, summary := .empty, error := some err })
          scenario.expectations = (true, none))
    ∧ (∀ (result : ScenarioResult)
        (expectations : Option ScenarioExpectations),
        result.ok = true →
        evaluate_expectations (some result) expectations
          = evaluate_expectations
              (some { result with error := none }) expectations) := by
  constructor
  · intro scenario hmem hfail err
    simp only [build_scenarios, List.mem_cons, List.not_mem_nil, or_false]
      at hmem
    rcases hmem with rfl | rfl | rfl | rfl | rfl | rfl | rfl | rfl <;>
      first
        | rfl
        | exact absurd hfail (by decide)
  · intro result expectations hok
    rcases result with ⟨ok, summary, error⟩
    simp only at hok
    subst hok
    cases expectations with
    | none => rfl
    | some e => cases error <;> simp [evaluate_expectations, truthyOptStr]

/-- Witness for C6: the `invalid_schema` scenario together with a rejected
request whose rejection is the expected outcome. -/
theorem expect_failure_skips_expectations_witness :
    invalid_schema_scenario ∈ build_scenarios
    ∧ invalid_schema_scenario.expect_failure = true
    ∧ evaluate_expectations
        (some { ok := true, summary := .empty,
                error := some "Error code: 400 - invalid schema" })
        invalid_schema_scenario.expectations = (true, none) := by
  have hmem : invalid_schema_scenario ∈ build_scenarios := by
    unfold build_scenarios
    exact .tail _ (.tail _ (.tail _ (.tail _ (.tail _ (.head _)))))
  exact ⟨hmem, rfl,
    expect_failure_skips_expectations.1 _ hmem rfl _⟩

/-- C10: `sanitize_arguments` is total — it returns a string for every
input — and whenever serialization fails (`json.dumps` raises
`TypeError`), it falls back to the value's default string form instead of
propagating the exception. -/
theorem sanitize_arguments_total_fallback :
    (∀ args : Args, ∃ out : String, sanitize_arguments args = out)
    ∧ (∀ entries : List (String × PyVal),
        dumps (.vDict entries) = none →
        sanitize_arguments (.dict entries) = pyStr (.vDict entries)) := by
  constructor
  · intro args; exact ⟨_, rfl⟩
  · intro entries h
    simp [sanitize_arguments, h]

/-- Witness for C10: a mapping holding a non-serializable object falls back
to the default string form. -/
theorem sanitize_arguments_total_fallback_witness :
    dumps (.vDict [("payload", .vOpaque "<object at 0x1>")]) = none
    ∧ sanitize_arguments (.dict [("payload", .vOpaque "<object at 0x1>")])
      = pyStr (.vDict [("payload", .vOpaque "<object at 0x1>")]) :=
  ⟨rfl, sanitize_arguments_total_fallback.2 _ rfl⟩

/-- C1 counterexample: the two summarizer paths do not produce the same set
of fields.  A concrete synchronous summary carries `role` while a concrete
streamed summary does not, and the streamed summary carries
`content_length` while the synchronous one does not. -/
theorem summary_shape_counterexample :
    ("role" ∈ (summarise_response (.sync
        { choices0 :=
          { finish_reason := some "stop"
            message :=
              { role := "assistant", content := some "hello"
                tool_calls := none, parsed := none } } })).keys
      ∧ "role" ∉ (summarise_response (.streamed
          { content := "AB", chunks := ["A", "B"]
            finish_reason := some "stop" })).keys)
    ∧ ("content_length" ∈ (summarise_response (.streamed
          { content := "AB", chunks := ["A", "B"]
            finish_reason := some "stop" })).keys
      ∧ "content_length" ∉ (summarise_response (.sync
        { choices0 :=
          { finish_reason := some "stop"
            message :=
              { role := "assistant", content := some "hello"
                tool_calls := none, parsed := none } } })).keys) := by
  decide

/-- C1 (amended): each summarizer path produces a fixed set of fields, but
the two sets differ beyond `chunk_count`: every streamed summary has
exactly `finish_reason`, `content_preview`, `content_length` and
`chunk_count`, while every synchronous summary has exactly
`finish_reason`, `role`, `has_content`, `parsed`, `tool_calls` and
`content_preview`. -/
theorem summary_shape_amended :
    (∀ aggregate : StreamAgg,
      (summarise_response (.streamed aggregate)).keys
        = ["finish_reason", "content_preview", "content_length",
           "chunk_count"])
    ∧ (∀ response : RawResponse,
      (summarise_response (.sync response)).keys
        = ["finish_reason", "role", "has_content", "parsed", "tool_calls",
           "content_preview"]) :=
  ⟨fun _ => rfl, fun _ => rfl⟩

/-- `getLast?` of a cons in terms of the tail's `getLast?`. -/
theorem getLast?_cons_match {α : Type} (a : α) (l : List α) :
    (a :: l).getLast? = match l.getLast? with
      | some x => some x
      | none => some a := by
  induction l with
  | nil => rfl
  | cons b t _ =>
      rw [List.getLast?_cons_cons]
      cases h : (b :: t).getLast? with
      | some x => rfl
      | none => exact absurd (List.getLast?_eq_none_iff.mp h) (by simp)

/-- The streaming loop, characterized from any starting accumulator: the
collected chunks are the previously collected ones followed by the emitted
contents in order, and the tracked finish reason is the last observed one,
falling back to the accumulator's. -/
theorem foldl_streamStep (chunks : List StreamChunk)
    (acc : List String × Option String) :
    chunks.foldl streamStep acc
      = (acc.1 ++ chunks.filterMap emittedContent,
         match (chunks.filterMap observedFinish).getLast? with
         | some fr => some fr
         | none => acc.2) := by
  induction chunks generalizing acc with
  | nil => simp
  | cons c cs ih =>
      rw [List.foldl_cons, ih (streamStep acc c)]
      refine Prod.ext ?_ ?_
      · show (if truthyOptStr c.delta_content then
            acc.1 ++ [c.delta_content.getD ""] else acc.1)
            ++ cs.filterMap emittedContent
          = acc.1 ++ (c :: cs).filterMap emittedContent
        rw [List.filterMap_cons]
        cases hd : truthyOptStr c.delta_content <;>
          simp [emittedContent, hd, List.append_assoc]
      · show (match (cs.filterMap observedFinish).getLast? with
            | some fr => some fr
            | none =>
                if truthyOptStr c.finish_reason then c.finish_reason
                else acc.2)
          = (match ((c :: cs).filterMap observedFinish).getLast? with
            | some fr => some fr
            | none => acc.2)
        cases hf : truthyOptStr c.finish_reason with
        | false =>
            have hc : observedFinish c = none := by
              simp [observedFinish, hf]
            rw [List.filterMap_cons, hc]
            simp
        | true =>
            cases hfr : c.finish_reason with
            | none => rw [hfr] at hf; exact absurd hf (by simp [truthyOptStr])
            | some s =>
                have hc : observedFinish c = some s := by
                  unfold observedFinish
                  rw [hf]
                  simp [hfr]
                rw [List.filterMap_cons, hc]
                cases hlast : (cs.filterMap observedFinish).getLast? <;>
                  simp [getLast?_cons_match, hlast]

/-- The streaming loop from the empty accumulator. -/
theorem consumeStream_spec (chunks : List StreamChunk) :
    consumeStream chunks
      = (chunks.filterMap emittedContent,
         (chunks.filterMap observedFinish).getLast?) := by
  rw [consumeStream, foldl_streamStep]
  cases h : (chunks.filterMap observedFinish).getLast? <;> simp [h]

/-- C3: for streaming requests the executor dispatches to the streaming
branch, which concatenates the emitted content deltas in order, trims the
surrounding whitespace, tracks the most recently observed finish reason,
and reports `ok=true` exactly when that terminal reason is `"stop"`; on
the two raw events `[{delta:"A"}, {delta:"B", finish_reason:"stop"}]` the
summary is `content_length=2`, `chunk_count=2`, `finish_reason="stop"`;
any exception during consumption yields `ok=false` with the message as
`error`. -/
theorem streaming_aggregation :
    (∀ (scenario : Scenario) (behavior : BackendBehavior),
      requestStream scenario.request = true →
      run_single_request scenario behavior
        = run_single_request_streaming behavior.stream)
    ∧ (∀ chunks : List StreamChunk,
      run_single_request_streaming (.events chunks)
        = { ok := decide
              ((chunks.filterMap observedFinish).getLast? = some "stop")
            summary := .streamed (chunks.filterMap observedFinish).getLast?
              (pySlice 120 (pyStrip
                (String.join (chunks.filterMap emittedContent))))
              (pyStrip (String.join (chunks.filterMap emittedContent))).length
              (chunks.filterMap emittedContent).length
            error := none })
    ∧ run_single_request_streaming (.events
        [{ delta_content := some "A", finish_reason := none },
         { delta_content := some "B", finish_reason := some "stop" }])
      = { ok := true, summary := .streamed (some "stop") "AB" 2 2
          error := none }
    ∧ (∀ msg, run_single_request_streaming (.raises msg)
        = { ok := false, summary := .empty, error := some msg }) := by
  refine ⟨?_, ?_, ?_, fun msg => rfl⟩
  · intro scenario behavior h
    simp [run_single_request, h]
  · intro chunks
    simp [run_single_request_streaming, consumeStream_spec,
      summarise_response]
  · rfl

/-- Witness for C3: a concrete streaming scenario with the two raw events
of the claim aggregates to content length 2, chunk count 2 and finish
reason `"stop"`. -/
theorem streaming_aggregation_witness :
    requestStream stream_scenario.request = true
    ∧ run_single_request stream_scenario
        { sync := .otherError "unused"
          stream := .events
            [{ delta_content := some "A", finish_reason := none },
             { delta_content := some "B", finish_reason := some "stop" }] }
      = { ok := true, summary := .streamed (some "stop") "AB" 2 2
          error := none } := by
  refine ⟨rfl, ?_⟩
  rw [streaming_aggregation.1 stream_scenario _ rfl]
  exact streaming_aggregation.2.2.1

/-- Joining a one-element feedback list is that element. -/
theorem intercalate_singleton (sep s : String) :
    String.intercalate sep [s] = s := rfl

/-- C7: when `min_content_length` is declared, the evaluator reads the
length from the summary's explicit `content_length` field if present and
otherwise from the preview's length, failing exactly when it is below the
bound and reporting both values; for `basic_completion`, a local result
with `finish_reason="stop"` and content length at least 5 passes, while
content length 3 fails with feedback naming the bound 5 and the actual
3. -/
theorem min_content_length_rule :
    (∀ (summary : Summary) (bound : Int),
      summary.isEmptyDict = false →
      evaluate_expectations (some { ok := true, summary := summary })
          (some { min_content_length := some bound })
        = (if (match summary.getContentLength with
               | some n => (n : Int)
               | none => (summary.getContentPreview.length : Int)) < bound
           then
             (false, some ("content too short (expected ≥" ++ toString bound
               ++ ", got "
               ++ toString
                 (match summary.getContentLength with
                  | some n => (n : Int)
                  | none => (summary.getContentPreview.length : Int))
               ++ ")"))
           else (true, none)))
    ∧ basic_completion_scenario ∈ build_scenarios
    ∧ basic_completion_scenario.expectations
        = some { finish_reason := some "stop", min_content_length := some 5 }
    ∧ (∀ preview : String, 5 ≤ preview.length →
        evaluate_expectations
          (some { ok := true
                  summary := .sync (some "stop") "assistant" true none none
                    preview })
          basic_completion_scenario.expectations = (true, none))
    ∧ evaluate_expectations
        (some { ok := true
                summary := .sync (some "stop") "assistant" true none none
                  "abc" })
        basic_completion_scenario.expectations
      = (false, some "content too short (expected ≥5, got 3)") := by
  refine ⟨?_, List.mem_cons_self _ _, rfl, ?_, by rfl⟩
  · intro summary bound h
    simp only [evaluate_expectations, truthyOptStr, Bool.false_and,
      Bool.if_false_left, h]
    cases hlen : summary.getContentLength with
    | none =>
        by_cases hlt : ((summary.getContentPreview.length : Int) < bound) <;>
          simp [hlen, hlt, intercalate_singleton]
    | some n =>
        by_cases hlt : ((n : Int) < bound) <;>
          simp [hlen, hlt, intercalate_singleton]
  · intro preview hlen
    have hnotlt : ¬ ((preview.length : Int) < (5 : Int)) := by
      exact not_lt.mpr (by exact_mod_cast hlen)
    simp [evaluate_expectations, basic_completion_scenario, truthyOptStr,
      Summary.isEmptyDict, Summary.getFinishReason, Summary.getContentLength,
      Summary.getContentPreview, hnotlt]

/-- Witness for C7: the general length rule applied to a concrete streamed
summary (explicit `content_length` 7, bound 10 — too short), and the
`basic_completion` passing case applied to the preview `"apple"`. -/
theorem min_content_length_rule_witness :
    (Summary.streamed (some "stop") "ignored" 7 3).isEmptyDict = false
    ∧ evaluate_expectations
        (some { ok := true
                summary := Summary.streamed (some "stop") "ignored" 7 3 })
        (some { min_content_length := some 10 })
      = (false, some "content too short (expected ≥10, got 7)")
    ∧ 5 ≤ "apple".length
    ∧ evaluate_expectations
        (some { ok := true
                summary := .sync (some "stop") "assistant" true none none
                  "apple" })
        basic_completion_scenario.expectations = (true, none) := by
  refine ⟨rfl, ?_, by decide, min_content_length_rule.2.2.2.1 "apple"
    (by decide)⟩
  rw [min_content_length_rule.1 (Summary.streamed (some "stop") "ignored" 7 3)
    10 rfl]
  rfl

/-- Agreement on the tracked fields is symmetric. -/
theorem trackedFieldsAgree_symm {s1 s2 : Summary}
    (h : trackedFieldsAgree s1 s2) : trackedFieldsAgree s2 s1 :=
  ⟨h.1.symm, h.2.1.symm, h.2.2.1.symm,
   fun hk => (h.2.2.2 (by rwa [Bool.or_comm] at hk)).symm⟩

/-- When both results are present, `compare_summaries` is `none` exactly
when a summary is empty or every tracked field agrees. -/
theorem compare_summaries_none_iff (ra rb : ScenarioResult) :
    compare_summaries (some ra) (some rb) = none ↔
      (ra.summary.isEmptyDict = true ∨ rb.summary.isEmptyDict = true
        ∨ trackedFieldsAgree ra.summary rb.summary) := by
  simp only [compare_summaries]
  by_cases h1 : ra.summary.isEmptyDict = true
  · simp [h1]
  · by_cases h2 : rb.summary.isEmptyDict = true
    · simp [h1, h2]
    · rw [if_neg (by simp [h1, h2])]
      by_cases hfr :
          ra.summary.getFinishReason = rb.summary.getFinishReason <;>
        by_cases hrole : ra.summary.getRole = rb.summary.getRole <;>
          by_cases htools :
              (ra.summary.getToolCalls.getD []).map
                  (fun (call : ToolCallSummary) => call.function.name)
                = (rb.summary.getToolCalls.getD []).map
                  (fun (call : ToolCallSummary) => call.function.name) <;>
            by_cases hkey :
                (ra.summary.hasContentLengthKey
                  || rb.summary.hasContentLengthKey) = true <;>
              by_cases hcl :
                  ra.summary.getContentLength
                    = rb.summary.getContentLength <;>
                simp [SummaryDiff.isEmptyDict, trackedFieldsAgree, hfr,
                  hrole, htools, hkey, hcl, h1, h2]

/-- A collapsed diff that does come back present is never empty. -/
theorem some_diff_nonempty (x d : SummaryDiff)
    (h : (if x.isEmptyDict = true then none else some x) = some d) :
    d.isEmptyDict = false := by
  by_cases hx : x.isEmptyDict = true
  · rw [if_pos hx] at h; cases h
  · rw [if_neg hx] at h; cases h; exact Bool.eq_false_iff.mpr hx

/-- C8: `compare_summaries` is symmetric in emptiness; it returns `none`
when either side has no result, when a present side has no summary, and
when every tracked field agrees; and whenever it does return a diff
mapping, that mapping is non-empty. -/
theorem compare_summaries_properties :
    (∀ A B : Option ScenarioResult,
      compare_summaries A B = none ↔ compare_summaries B A = none)
    ∧ (∀ A B : Option ScenarioResult, (A = none ∨ B = none) →
        compare_summaries A B = none)
    ∧ (∀ ra rb : ScenarioResult,
        (ra.summary.isEmptyDict = true ∨ rb.summary.isEmptyDict = true) →
        compare_summaries (some ra) (some rb) = none)
    ∧ (∀ ra rb : ScenarioResult, trackedFieldsAgree ra.summary rb.summary →
        compare_summaries (some ra) (some rb) = none)
    ∧ (∀ (A B : Option ScenarioResult) (d : SummaryDiff),
        compare_summaries A B = some d → d.isEmptyDict = false) := by
  refine ⟨?_, ?_, ?_, ?_, ?_⟩
  · intro A B
    cases A with
    | none => cases B <;> rfl
    | some ra =>
        cases B with
        | none => rfl
        | some rb =>
            rw [compare_summaries_none_iff, compare_summaries_none_iff]
            constructor
            · rintro (h | h | h)
              · exact Or.inr (Or.inl h)
              · exact Or.inl h
              · exact Or.inr (Or.inr (trackedFieldsAgree_symm h))
            · rintro (h | h | h)
              · exact Or.inr (Or.inl h)
              · exact Or.inl h
              · exact Or.inr (Or.inr (trackedFieldsAgree_symm h))
  · rintro A B (rfl | rfl)
    · cases B <;> rfl
    · cases A <;> rfl
  · intro ra rb h
    exact (compare_summaries_none_iff ra rb).mpr
      (h.elim Or.inl (Or.inr ∘ Or.inl))
  · intro ra rb h
    exact (compare_summaries_none_iff ra rb).mpr (Or.inr (Or.inr h))
  · intro A B d h
    cases A with
    | none => cases B <;> exact absurd h (by simp [compare_summaries])
    | some ra =>
        cases B with
        | none => exact absurd h (by simp [compare_summaries])
        | some rb =>
            simp only [compare_summaries] at h
            by_cases hemp :
                (ra.summary.isEmptyDict || rb.summary.isEmptyDict) = true
            · rw [if_pos hemp] at h; cases h
            · rw [if_neg hemp] at h
              exact some_diff_nonempty _ _ h

/-- Witness for C8: concrete instantiations — an absent side compares to
`none`; two results agreeing on every tracked field compare to `none`; a
concrete differing pair produces a non-empty diff. -/
theorem compare_summaries_properties_witness :
    compare_summaries none none = none
    ∧ trackedFieldsAgree
        (Summary.sync (some "stop") "assistant" true none none "hi")
        (Summary.sync (some "stop") "assistant" true none none "hello")
    ∧ compare_summaries
        (some { ok := true
                summary := .sync (some "stop") "assistant" true none none
                  "hi" })
        (some { ok := true
                summary := .sync (some "stop") "assistant" true none none
                  "hello" }) = none
    ∧ compare_summaries
        (some { ok := true
                summary := .sync (some "stop") "assistant" true none none
                  "hi" })
        (some { ok := true
                summary := .sync (some "tool_calls") "assistant" true none
                  none "hi" })
      = some { finish_reason := some (some "stop", some "tool_calls") }
    ∧ ({ finish_reason :=
          some ((some "stop" : Option String),
            (some "tool_calls" : Option String)) } : SummaryDiff).isEmptyDict
        = false := by
  have hagree : trackedFieldsAgree
      (Summary.sync (some "stop") "assistant" true none none "hi")
      (Summary.sync (some "stop") "assistant" true none none "hello") := by
    refine ⟨rfl, rfl, rfl, fun hk => rfl⟩
  have hdiff : compare_summaries
      (some { ok := true
              summary := .sync (some "stop") "assistant" true none none
                "hi" })
      (some { ok := true
              summary := .sync (some "tool_calls") "assistant" true none
                none "hi" })
      = some { finish_reason := some (some "stop", some "tool_calls") } := by
    decide
  refine ⟨compare_summaries_properties.2.1 none none (Or.inl rfl), hagree,
    compare_summaries_properties.2.2.2.1 _ _ hagree, hdiff,
    compare_summaries_properties.2.2.2.2 _ _ _ hdiff⟩

/-- The per-scenario pass criterion of the table renderer, spelled out:
it is the local result (absent counts as success) conjoined with the
expectation outcome, and it never reads the reference backend's result. -/
theorem pst_runScenario (lbeh obeh : Option BackendBehavior) (s : Scenario) :
    print_scenario_table_success (runScenario lbeh obeh s)
      = ((match lbeh with
          | none => true
          | some b => (run_single_request s b).ok)
        && (evaluate_expectations (lbeh.map (run_single_request s))
            s.expectations).1) := by
  cases lbeh <;> rfl

/-- `all` over a mapped list, membership form. -/
theorem all_map_eq_true {α β : Type} (f : α → β) (l : List α)
    (p : β → Bool) :
    (l.map f).all p = true ↔ ∀ a ∈ l, p (f a) = true := by
  rw [List.all_eq_true]
  constructor
  · intro h a ha
    exact h (f a) (List.mem_map_of_mem f ha)
  · intro h x hx
    rcases List.mem_map.mp hx with ⟨a, ha, rfl⟩
    exact h a ha

/-- `main_exit` on a non-empty selection is the collapsed all-scenarios
check. -/
theorem main_exit_nonempty (scenarios : List Scenario)
    (lb ob : Option (Scenario → BackendBehavior))
    (hs : scenarios.isEmpty = false) :
    main_exit scenarios lb ob
      = if (scenarios.map fun s =>
            runScenario (lb.map (· s)) (ob.map (· s)) s).all
            print_scenario_table_success
        then 0 else 1 := by
  rw [main_exit, if_neg (by simp [hs])]

/-- C4: a scenario counts as passed exactly when its local result is absent
or `ok` and its expectations passed; the reference backend's outcomes
affect neither the exit status nor the passed count; the exit status is
zero exactly when no scenario was selected or every selected scenario
passes that criterion. -/
theorem exit_status_criterion :
    (∀ (scenarios : List Scenario)
       (lb ob : Option (Scenario → BackendBehavior)),
      main_exit scenarios lb ob = 0 ↔
        (scenarios = [] ∨ ∀ s ∈ scenarios,
          (∀ f, lb = some f → (run_single_request s (f s)).ok = true)
            ∧ (evaluate_expectations
                (lb.map fun f => run_single_request s (f s))
                s.expectations).1 = true))
    ∧ (∀ (scenarios : List Scenario)
        (lb ob ob2 : Option (Scenario → BackendBehavior)),
        main_exit scenarios lb ob = main_exit scenarios lb ob2)
    ∧ (∀ (scenarios : List Scenario)
        (lb ob ob2 : Option (Scenario → BackendBehavior)),
        passedCount (scenarios.map fun s =>
          runScenario (lb.map (· s)) (ob.map (· s)) s)
        = passedCount (scenarios.map fun s =>
          runScenario (lb.map (· s)) (ob2.map (· s)) s)) := by
  have hz : ∀ (b : Bool), (if b = true then (0 : Nat) else 1) = 0 ↔
      b = true := by
    intro b; cases b <;> simp
  refine ⟨?_, ?_, ?_⟩
  · intro scenarios lb ob
    by_cases hs : scenarios.isEmpty = true
    · rw [List.isEmpty_iff] at hs
      subst hs
      simp [main_exit]
    · have hs' : scenarios ≠ [] := by
        intro he; exact hs (by simp [he])
      rw [main_exit_nonempty _ _ _ (by simpa using hs), hz,
        all_map_eq_true]
      cases lb with
      | none =>
          constructor
          · intro h
            refine Or.inr fun s hsmem =>
              ⟨(fun f hf => nomatch hf), ?_⟩
            have hps := h s hsmem
            rw [pst_runScenario, Bool.and_eq_true] at hps
            simpa using hps.2
          · rintro (rfl | h)
            · exact absurd rfl hs'
            · intro s hsmem
              rw [pst_runScenario, Bool.and_eq_true]
              exact ⟨rfl, by simpa using (h s hsmem).2⟩
      | some f =>
          constructor
          · intro h
            refine Or.inr fun s hsmem => ?_
            have hps := h s hsmem
            rw [pst_runScenario, Bool.and_eq_true] at hps
            exact ⟨fun f' hf' => by cases hf'; simpa using hps.1,
              by simpa using hps.2⟩
          · rintro (rfl | h)
            · exact absurd rfl hs'
            · intro s hsmem
              rw [pst_runScenario, Bool.and_eq_true]
              exact ⟨by simpa using (h s hsmem).1 f rfl,
                by simpa using (h s hsmem).2⟩
  · intro scenarios lb ob ob2
    by_cases hs : scenarios.isEmpty = true
    · rw [main_exit, main_exit, if_pos hs, if_pos hs]
    · have hall : (scenarios.map fun s =>
            runScenario (lb.map (· s)) (ob.map (· s)) s).all
            print_scenario_table_success
          = (scenarios.map fun s =>
            runScenario (lb.map (· s)) (ob2.map (· s)) s).all
            print_scenario_table_success := by
        rw [Bool.eq_iff_iff, all_map_eq_true, all_map_eq_true]
        constructor
        all_goals
          intro h s hsmem
          have hps := h s hsmem
          rw [pst_runScenario] at hps
          rw [pst_runScenario]
          exact hps
      rw [main_exit_nonempty _ _ _ (by simpa using hs),
        main_exit_nonempty _ _ _ (by simpa using hs), hall]
  · intro scenarios lb ob ob2
    show ((scenarios.map fun s =>
        runScenario (lb.map (· s)) (ob.map (· s)) s).filter
        print_scenario_table_success).length
      = ((scenarios.map fun s =>
        runScenario (lb.map (· s)) (ob2.map (· s)) s).filter
        print_scenario_table_success).length
    rw [List.filter_map, List.filter_map, List.length_map,
      List.length_map]
    refine congrArg List.length (List.filter_congr fun s _ => ?_)
    show print_scenario_table_success
        (runScenario (lb.map (· s)) (ob.map (· s)) s)
      = print_scenario_table_success
        (runScenario (lb.map (· s)) (ob2.map (· s)) s)
    rw [pst_runScenario, pst_runScenario]

/-- Witness for C4: an empty selection exits zero, and a concrete
non-empty run's exit status is unchanged by the reference backend's
behavior. -/
theorem exit_status_criterion_witness :
    main_exit [] none none = 0
    ∧ main_exit [plain_scenario] none none
      = main_exit [plain_scenario] none
          (some fun _ =>
            { sync := .otherError "boom", stream := .raises "boom" }) :=
  ⟨(exit_status_criterion.1 [] none none).mpr (Or.inl rfl),
   exit_status_criterion.2.1 [plain_scenario] none none _⟩

/-- `sortKeysEntries` maps `sortKeysVal` over the values and keeps the
keys. -/
theorem sortKeysEntries_eq_map (l : List (String × PyVal)) :
    sortKeysEntries l = l.map fun kv => (kv.1, sortKeysVal kv.2) := by
  induction l with
  | nil => rfl
  | cons kv kvs ih => cases kv; simp [sortKeysEntries, ih]

/-- The code-point comparison is asymmetric. -/
theorem charListLtB_asymm : ∀ {a b : List Char},
    charListLtB a b = true → charListLtB b a = false := by
  intro a
  induction a with
  | nil =>
      intro b h
      cases b with
      | nil => exact absurd h (by simp [charListLtB])
      | cons c cs => simp [charListLtB]
  | cons x xs ih =>
      intro b h
      cases b with
      | nil => simp [charListLtB] at h
      | cons y ys =>
          simp only [charListLtB] at h ⊢
          by_cases h1 : x.toNat < y.toNat
          · rw [if_neg (Nat.lt_asymm h1), if_pos h1]
          · rw [if_neg h1] at h
            by_cases h2 : y.toNat < x.toNat
            · rw [if_pos h2] at h; exact absurd h (by simp)
            · rw [if_neg h2] at h
              rw [if_neg h2, if_neg h1]
              exact ih h

/-- Trichotomy for the code-point comparison: less, equal or greater. -/
theorem charListLtB_trichotomy : ∀ (a b : List Char),
    charListLtB a b = true ∨ a = b ∨ charListLtB b a = true := by
  intro a
  induction a with
  | nil =>
      intro b
      cases b with
      | nil => exact Or.inr (Or.inl rfl)
      | cons c cs => exact Or.inl (by simp [charListLtB])
  | cons x xs ih =>
      intro b
      cases b with
      | nil => exact Or.inr (Or.inr (by simp [charListLtB]))
      | cons y ys =>
          rcases Nat.lt_trichotomy x.toNat y.toNat with h | h | h
          · exact Or.inl (by simp [charListLtB, h])
          · have hxy : x = y := by
              have hofn : Char.ofNat x.toNat = Char.ofNat y.toNat := by
                rw [h]
              exact (Char.ofNat_toNat x).symm.trans
                (hofn.trans (Char.ofNat_toNat y))
            subst hxy
            rcases ih ys with h' | h' | h'
            · exact Or.inl (by simp [charListLtB, Nat.lt_irrefl, h'])
            · exact Or.inr (Or.inl (by rw [h']))
            · exact Or.inr (Or.inr
                (by simp [charListLtB, Nat.lt_irrefl, h']))
          · exact Or.inr (Or.inr
              (by simp [charListLtB, h, Nat.lt_asymm h]))

/-- The code-point comparison is transitive. -/
theorem charListLtB_trans : ∀ {a b c : List Char},
    charListLtB a b = true → charListLtB b c = true →
    charListLtB a c = true := by
  intro a
  induction a with
  | nil =>
      intro b c h1 h2
      cases c with
      | nil =>
          cases b with
          | nil => exact absurd h1 (by simp [charListLtB])
          | cons y ys => exact absurd h2 (by simp [charListLtB])
      | cons z zs => simp [charListLtB]
  | cons x xs ih =>
      intro b c h1 h2
      cases b with
      | nil => exact absurd h1 (by simp [charListLtB])
      | cons y ys =>
          cases c with
          | nil => exact absurd h2 (by simp [charListLtB])
          | cons z zs =>
              simp only [charListLtB] at h1 h2 ⊢
              by_cases hxy : x.toNat < y.toNat
              · by_cases hyz : y.toNat < z.toNat
                · rw [if_pos (Nat.lt_trans hxy hyz)]
                · rw [if_neg hyz] at h2
                  by_cases hzy : z.toNat < y.toNat
                  · rw [if_pos hzy] at h2; exact absurd h2 (by simp)
                  · have hyzeq : y.toNat = z.toNat :=
                      Nat.le_antisymm (Nat.le_of_not_lt hzy)
                        (Nat.le_of_not_lt hyz)
                    rw [if_pos (hyzeq ▸ hxy)]
              · rw [if_neg hxy] at h1
                by_cases hyx : y.toNat < x.toNat
                · rw [if_pos hyx] at h1; exact absurd h1 (by simp)
                · rw [if_neg hyx] at h1
                  have hxyeq : x.toNat = y.toNat :=
                    Nat.le_antisymm (Nat.le_of_not_lt hyx)
                      (Nat.le_of_not_lt hxy)
                  by_cases hyz : y.toNat < z.toNat
                  · rw [if_pos (hxyeq ▸ hyz)]
                  · rw [if_neg hyz] at h2
                    by_cases hzy : z.toNat < y.toNat
                    · rw [if_pos hzy] at h2; exact absurd h2 (by simp)
                    · rw [if_neg hzy] at h2
                      rw [if_neg (hxyeq ▸ hyz), if_neg (hxyeq ▸ hzy)]
                      exact ih h1 h2

/-- The key order is total. -/
theorem keyLe_total : ∀ (a b : String × PyVal), keyLe a b ∨ keyLe b a := by
  intro a b
  unfold keyLe
  cases h : pyStrLt b.1 a.1 with
  | false => exact Or.inl rfl
  | true =>
      refine Or.inr ?_
      exact charListLtB_asymm h

/-- The key order is transitive. -/
theorem keyLe_trans : ∀ (a b c : String × PyVal),
    keyLe a b → keyLe b c → keyLe a c := by
  intro a b c h1 h2
  unfold keyLe at h1 h2 ⊢
  cases hca : pyStrLt c.1 a.1 with
  | false => rfl
  | true =>
      exfalso
      rcases charListLtB_trichotomy a.1.data b.1.data with hab | hab | hab
      · have : charListLtB c.1.data b.1.data = true :=
          charListLtB_trans hca hab
        rw [show pyStrLt c.1 b.1 = charListLtB c.1.data b.1.data from rfl,
          this] at h2
        exact absurd h2 (by simp)
      · rw [show pyStrLt c.1 a.1 = charListLtB c.1.data a.1.data from rfl,
          hab] at hca
        rw [show pyStrLt c.1 b.1 = charListLtB c.1.data b.1.data from rfl,
          hca] at h2
        exact absurd h2 (by simp)
      · rw [show pyStrLt b.1 a.1 = charListLtB b.1.data a.1.data from rfl,
          hab] at h1
        exact absurd h1 (by simp)

/-- A weak key inequality with distinct keys is strict. -/
theorem keyLt_of_keyLe_ne {a b : String × PyVal}
    (hle : keyLe a b) (hne : a.1 ≠ b.1) : keyLt a b := by
  unfold keyLe at hle
  unfold keyLt
  rcases charListLtB_trichotomy a.1.data b.1.data with h | h | h
  · exact h
  · exfalso
    refine hne ?_
    rcases ha : a.1 with ⟨da⟩
    rcases hb : b.1 with ⟨db⟩
    rw [ha, hb] at h
    simp only at h
    rw [h]
  · exact absurd hle (by
      rw [show pyStrLt b.1 a.1 = charListLtB b.1.data a.1.data from rfl, h]
      simp)

/-- Sorting by key is invariant under permutation when the keys are
distinct. -/
theorem insertionSort_key_eq (l1 l2 : List (String × PyVal))
    (hperm : l1.Perm l2) (hnodup : (l1.map Prod.fst).Nodup) :
    List.insertionSort keyLe l1 = List.insertionSort keyLe l2 := by
  have hstrict : ∀ (l : List (String × PyVal)), List.Sorted keyLe l →
      (l.map Prod.fst).Nodup → List.Sorted keyLt l := by
    intro l hle hnd
    have hne : l.Pairwise fun a b => a.1 ≠ b.1 := List.pairwise_map.mp hnd
    exact (hle.and hne).imp fun h => keyLt_of_keyLe_ne h.1 h.2
  have hp : (List.insertionSort keyLe l1).Perm
      (List.insertionSort keyLe l2) :=
    (List.perm_insertionSort keyLe l1).trans
      (hperm.trans (List.perm_insertionSort keyLe l2).symm)
  have hn1 : ((List.insertionSort keyLe l1).map Prod.fst).Nodup :=
    (((List.perm_insertionSort keyLe l1).map Prod.fst).nodup_iff).mpr hnodup
  have hn2 : ((List.insertionSort keyLe l2).map Prod.fst).Nodup :=
    (((List.perm_insertionSort keyLe l2).map Prod.fst).nodup_iff).mpr
      (((hperm.map Prod.fst).nodup_iff).mp hnodup)
  have hs1 := @List.sorted_insertionSort _ keyLe _ ⟨keyLe_total⟩
    ⟨keyLe_trans⟩ l1
  have hs2 := @List.sorted_insertionSort _ keyLe _ ⟨keyLe_total⟩
    ⟨keyLe_trans⟩ l2
  exact @List.eq_of_perm_of_sorted _ keyLt
    ⟨fun a b h h' => absurd (charListLtB_asymm h) (by
      unfold keyLt pyStrLt at h'
      simp [h'])⟩ _ _ hp
    (hstrict _ hs1 hn1) (hstrict _ hs2 hn2)

/-- `json.dumps(..., sort_keys=True)` on permuted mappings with distinct
keys produces the same outcome. -/
theorem dumps_dict_perm (d1 d2 : List (String × PyVal))
    (hperm : d1.Perm d2) (hnodup : (d1.map Prod.fst).Nodup) :
    dumps (.vDict d1) = dumps (.vDict d2) := by
  unfold dumps
  have hperm' : (sortKeysEntries d1).Perm (sortKeysEntries d2) := by
    rw [sortKeysEntries_eq_map, sortKeysEntries_eq_map]
    exact hperm.map _
  have hkeys : ((sortKeysEntries d1).map Prod.fst) = d1.map Prod.fst := by
    rw [sortKeysEntries_eq_map, List.map_map]
    rfl
  have heq : List.insertionSort keyLe (sortKeysEntries d1)
      = List.insertionSort keyLe (sortKeysEntries d2) :=
    insertionSort_key_eq _ _ hperm' (by rw [hkeys]; exact hnodup)
  show dumpsRaw (.vDict (List.insertionSort keyLe (sortKeysEntries d1)))
    = dumpsRaw (.vDict (List.insertionSort keyLe (sortKeysEntries d2)))
  rw [heq]

/-- C9 counterexample: when the mapping holds a value `json.dumps` cannot
serialize, the fallback `str(args)` preserves insertion order, so two
structurally equal but differently ordered mappings canonicalize to
different strings. -/
theorem sanitize_arguments_order_counterexample :
    ([("b", PyVal.vOpaque "<obj>"), ("a", PyVal.vInt 2)]).Perm
      [("a", PyVal.vInt 2), ("b", PyVal.vOpaque "<obj>")]
    ∧ ((["b", "a"] : List String).Nodup)
    ∧ sanitize_arguments
        (.dict [("b", .vOpaque "<obj>"), ("a", .vInt 2)])
      ≠ sanitize_arguments
        (.dict [("a", .vInt 2), ("b", .vOpaque "<obj>")]) :=
  ⟨List.Perm.swap _ _ _, by decide, by decide⟩

/-- C9 (amended): `sanitize_arguments` is idempotent and passes strings
through unchanged for every input, and two structurally equal mappings
with distinct keys in different orders produce identical strings whenever
the mapping serializes successfully (keys are serialized
lexicographically sorted); only the `str()` fallback for non-serializable
values is order-sensitive. -/
theorem sanitize_arguments_canonical :
    (∀ args : Args,
      sanitize_arguments (.str (sanitize_arguments args))
        = sanitize_arguments args)
    ∧ (∀ s : String, sanitize_arguments (.str s) = s)
    ∧ (∀ d1 d2 : List (String × PyVal), d1.Perm d2 →
        (d1.map Prod.fst).Nodup →
        (∃ out, dumps (.vDict d1) = some out) →
        sanitize_arguments (.dict d1) = sanitize_arguments (.dict d2)) := by
  refine ⟨fun args => rfl, fun s => rfl, ?_⟩
  intro d1 d2 hperm hnodup hser
  obtain ⟨out, h1⟩ := hser
  have hd : dumps (.vDict d1) = dumps (.vDict d2) :=
    dumps_dict_perm d1 d2 hperm hnodup
  have h2 : dumps (.vDict d2) = some out := hd ▸ h1
  simp [sanitize_arguments, h1, h2]

/-- Witness for C9: a concrete two-entry serializable mapping in its two
orders canonicalizes identically. -/
theorem sanitize_arguments_canonical_witness :
    ([("b", PyVal.vInt 1), ("a", PyVal.vInt 2)]).Perm
      [("a", PyVal.vInt 2), ("b", PyVal.vInt 1)]
    ∧ (([("b", PyVal.vInt 1), ("a", PyVal.vInt 2)]).map Prod.fst).Nodup
    ∧ dumps (.vDict [("b", .vInt 1), ("a", .vInt 2)])
        = some "\x7b\"a\": 2, \"b\": 1\x7d"
    ∧ sanitize_arguments (.dict [("b", .vInt 1), ("a", .vInt 2)])
      = sanitize_arguments (.dict [("a", .vInt 2), ("b", .vInt 1)]) := by
  refine ⟨List.Perm.swap _ _ _, by decide, by decide, ?_⟩
  exact sanitize_arguments_canonical.2.2 _ _ (List.Perm.swap _ _ _)
    (by decide) ⟨_, rfl⟩
